import Mathlib

/-!
Verification development for the discord-soundboard-bot interaction-driven
playback dispatcher.

The handler chain (`event_handler` → `handle_interaction_create` →
`handle_component_interaction` → `handle_btn_interaction`) is translated from
`src/main.rs`.  The collaborating modules (`helpers.rs` with
`ButtonCustomId::try_from` and `SongbirdHelper::play_audio`, `db.rs` with
`AudioTable::find_audio_row`) are not part of the source tree that was
available; their definitions are modelled from the specification and marked
as such in their doc comments.

External effects of the handlers (platform acknowledgement, database access,
voice playback, error logging) are made explicit as a trace of `Act`
values, and the per-guild voice sessions as an explicit list of
`VoiceSession` values threaded through the handlers.
-/

/-- Converts a decimal digit character to its numeric value; any
non-digit character yields `none`. -/
def charToDigit (c : Char) : Option Nat :=
  if 48 ≤ c.toNat ∧ c.toNat ≤ 57 then some (c.toNat - 48) else none

/-- Accumulating decimal parser over a list of characters: fails on the
first non-digit character. -/
def parseNatAux (acc : Nat) : List Char → Option Nat
  | [] => some acc
  | c :: cs =>
    match charToDigit c with
    | some d => parseNatAux (acc * 10 + d) cs
    | none => none

/-- Parses a non-empty all-digit character list as a decimal `Nat`. -/
def parseNat (l : List Char) : Option Nat :=
  if l.isEmpty then none else parseNatAux 0 l

/-- The decimal digit character for a value below ten. -/
def digitChar : Nat → Char
  | 0 => '0'
  | 1 => '1'
  | 2 => '2'
  | 3 => '3'
  | 4 => '4'
  | 5 => '5'
  | 6 => '6'
  | 7 => '7'
  | 8 => '8'
  | 9 => '9'
  | _ => 'x'

/-- Decimal representation of a `Nat` as a character list (most significant
digit first). -/
def natChars (n : Nat) : List Char :=
  if h : n < 10 then [digitChar n]
  else
    have hlt : n / 10 < n := Nat.div_lt_self (by omega) (by omega)
    natChars (n / 10) ++ [digitChar (n % 10)]

/-- Splits off the literal wire-format action tag: `stripPlay l` is
`some rest` exactly when `l` spells `play:` followed by `rest`. -/
def stripPlay : List Char → Option (List Char)
  | 'p' :: 'l' :: 'a' :: 'y' :: ':' :: rest => some rest
  | _ => none

/-- Modelled from the spec: the tagged value decoded from a button's custom
id string (`helpers.rs` is not in the available source tree).  Variants per
the data model: `PlayAudio(row_id)` (row id modelled as `Nat`, a database
row identifier) and `Unknown(raw)`. -/
inductive ButtonCustomId where
  | PlayAudio (row_id : Nat)
  | Unknown (raw : String)
deriving DecidableEq

/-- Modelled from the spec: `ButtonCustomId::try_from` (defined in the
missing `helpers.rs`, called at `main.rs` line 232).  Wire format
`play:<id>`; any string not of that shape decodes to `Unknown` carrying the
original string, so decoding is total and never fails. -/
def ButtonCustomId.try_from (s : String) : ButtonCustomId :=
  match stripPlay s.data with
  | some rest =>
    match parseNat rest with
    | some n => ButtonCustomId.PlayAudio n
    | none => ButtonCustomId.Unknown s
  | none => ButtonCustomId.Unknown s

/-- Modelled from the spec: the encoder producing the button custom-id wire
format `play:<id>` (buttons are built in the missing `commands.rs`). -/
def ButtonCustomId.encode : ButtonCustomId → String
  | ButtonCustomId.PlayAudio n => String.mk ('p' :: 'l' :: 'a' :: 'y' :: ':' :: natChars n)
  | ButtonCustomId.Unknown s => s

/-- Modelled from the spec: a catalog row of the Audio Catalog Store
(`db.rs` is not in the available source tree; `main.rs` reads the fields
`name` and `audio_file` of the returned row).  The file path is modelled
as a string. -/
structure AudioRow where
  id : Nat
  name : String
  audio_file : String
deriving DecidableEq

/-- Modelled from the spec: the unique-column selector of the catalog
lookup, matched in `main.rs` as `db::UniqueAudioTableCol::Id(..)`. -/
inductive UniqueAudioTableCol where
  | Id (id : Nat)
  | Name (name : String)
deriving DecidableEq

/-- Modelled from the spec: `AudioTable::find_audio_row` (defined in the
missing `db.rs`, called at `main.rs` line 244).  The catalog is modelled as
the list of its rows; the lookup returns the matching row or `none`,
never a default row and never an exception. -/
def find_audio_row (catalog : List AudioRow) : UniqueAudioTableCol → Option AudioRow
  | UniqueAudioTableCol.Id i => catalog.find? (fun r => r.id == i)
  | UniqueAudioTableCol.Name n => catalog.find? (fun r => r.name == n)

/-- Modelled from the spec: per-guild playback state of a voice session. -/
inductive PlayState where
  | idle
  | playing
  | paused
  | stopped
deriving DecidableEq

/-- Modelled from the spec: the ephemeral per-guild voice session owned by
the Voice Session Manager (`SongbirdHelper` in the missing `helpers.rs`). -/
structure VoiceSession where
  guild_id : Nat
  channel_id : Option Nat
  track : Option String
  playState : PlayState
deriving DecidableEq

/-- The guild identifiers of a list of sessions; the invariant of the
session map is that this list has no duplicates (at most one session per
guild). -/
def guildIds (st : List VoiceSession) : List Nat :=
  st.map (fun s => s.guild_id)

/-- Updates the session of guild `g` (if present) in place, leaving every
other guild's session untouched. -/
def setSession (st : List VoiceSession) (g : Nat) (f : VoiceSession → VoiceSession) :
    List VoiceSession :=
  st.map (fun s => if s.guild_id == g then f s else s)

/-- Modelled from the spec: the voice transport black box exposed to the
Voice Session Manager.  `joinError g c` is `some cause` when the transport
cannot join channel `c` of guild `g`; `openError f` is `some cause` when
the asset `f` cannot be opened/streamed. -/
structure Transport where
  joinError : Nat → Nat → Option String
  openError : String → Option String

/-- Modelled from the spec: the voice-layer error taxonomy of
`play_audio`, each variant carrying the underlying cause. -/
inductive VoiceError where
  | ConnectFailed (cause : String)
  | PlaybackFailed (cause : String)
deriving DecidableEq

/-- An external effect performed by the handlers: the platform
acknowledgement round-trip, error logging, database calls and the voice
playback call. -/
inductive Act where
  | acknowledge
  | logError (msg : String)
  | createAudioTable
  | createSettingsTable
  | dbFindAudioRow (id : Nat)
  | voicePlayAudio (guild_id channel_id : Nat) (audio_file : String)
deriving DecidableEq

/-- Actions visible to the outside world (platform, database, voice
transport); log lines are observability only. -/
def isExternalAct : Act → Bool
  | Act.logError _ => false
  | _ => true

/-- Modelled from the spec: `connect(guild_id, channel_id)` of the Voice
Session Manager.  Reuses (migrating the channel of) the single existing
session of the guild when there is one, otherwise creates the one session
for that guild. -/
def connect (st : List VoiceSession) (guild_id channel_id : Nat) : List VoiceSession :=
  if st.any (fun s => s.guild_id == guild_id) then
    setSession st guild_id (fun s => { s with channel_id := some channel_id })
  else
    st ++ [{ guild_id := guild_id, channel_id := some channel_id,
             track := none, playState := PlayState.idle }]

/-- Modelled from the spec: `SongbirdHelper::play_audio` (defined in the
missing `helpers.rs`, called at `main.rs` lines 252-255).  Ensures the
guild is connected, then starts playback of the file, preempting any
currently playing track.  Fails with `ConnectFailed` when the transport
cannot join and `PlaybackFailed` when the asset cannot be opened, in both
cases reporting the failure (a `logError` action carrying the cause) and
leaving the session state unchanged. -/
def play_audio (tr : Transport) (st : List VoiceSession) (guild_id channel_id : Nat)
    (audio_file : String) : List Act × Except VoiceError (List VoiceSession) :=
  match tr.joinError guild_id channel_id with
  | some cause => ([Act.logError cause], Except.error (VoiceError.ConnectFailed cause))
  | none =>
    match tr.openError audio_file with
    | some cause => ([Act.logError cause], Except.error (VoiceError.PlaybackFailed cause))
    | none =>
      ([], Except.ok (setSession (connect st guild_id channel_id) guild_id
        (fun s => { s with track := some audio_file, playState := PlayState.playing })))

/-- The per-interaction error values of the button handler, modelling the
error strings returned in `main.rs` under the names the error-handling
design gives them: `missingGuildContext` is the
`"ComponentInteraction.guild_id is None"` error, `unknownAudioTrack` the
`"Unable to locate audio track..."` error, `unrecognizedCustomId` the
`"Unrecognized button custom_id..."` error carrying the offending value. -/
inductive BtnError where
  | missingGuildContext
  | unknownAudioTrack
  | unrecognizedCustomId (value : String)
deriving DecidableEq

/-- Error message logged at `main.rs` lines 237-240. -/
def msgMissingGuild : String := "ComponentInteraction.guild_id is None"

/-- Error message logged at `main.rs` lines 257-263. -/
def msgUnknownTrack : String := "Unable to locate audio track for button custom id"

/-- Error message logged at `main.rs` lines 266-272 (the offending value is
appended). -/
def msgUnrecognized : String := "Unrecognized button custom_id for component interaction. Value="

/-- The kind of a component interaction
(`serenity::ComponentInteractionDataKind`); `main.rs` line 208 inspects
only the `Button` case, every other kind falls into the wildcard arm and
is collapsed into one parameterized constructor. -/
inductive ComponentKind where
  | button
  | otherKind (tag : Nat)
deriving DecidableEq

/-- The fields of `serenity::ComponentInteraction` read by
`handle_btn_interaction`: the button's custom id, the channel the
interaction was sent from, and the optional guild. -/
structure ComponentInteraction where
  custom_id : String
  channel_id : Nat
  guild_id : Option Nat
  kind : ComponentKind
deriving DecidableEq

/-- `serenity::Interaction`: `main.rs` line 190 inspects only the
`Component` case; the remaining variants (ping, command, autocomplete,
modal) fall into the wildcard arm and are collapsed into one parameterized
constructor. -/
inductive Interaction where
  | component (component : ComponentInteraction)
  | otherInteraction (tag : Nat)
deriving DecidableEq

/-- `poise::FullEvent`: `main.rs` line 143 inspects only `Ready` and
`InteractionCreate`; the many remaining variants fall into the wildcard
arm and are collapsed into one parameterized constructor. -/
inductive FullEvent where
  | ready
  | interactionCreate (interaction : Interaction)
  | otherEvent (tag : Nat)
deriving DecidableEq

/-- The dispatch work of `handle_btn_interaction` (`main.rs` line 232
onward), performed after the acknowledgement: decode the custom id, check
the guild context, look the row up in the catalog, and call `play_audio`
(whose result the source discards).  Returns the action trace, the updated
session state and the handler's result. -/
def btn_dispatch (catalog : List AudioRow) (tr : Transport) (st : List VoiceSession)
    (component : ComponentInteraction) :
    List Act × List VoiceSession × Except BtnError Unit :=
  match ButtonCustomId.try_from component.custom_id with
  | ButtonCustomId.PlayAudio audio_track_id =>
    match component.guild_id with
    | none =>
      ([Act.logError msgMissingGuild], st, Except.error BtnError.missingGuildContext)
    | some guild_id =>
      match find_audio_row catalog (UniqueAudioTableCol.Id audio_track_id) with
      | some audio_row =>
        let res := play_audio tr st guild_id component.channel_id audio_row.audio_file
        (Act.dbFindAudioRow audio_track_id ::
           Act.voicePlayAudio guild_id component.channel_id audio_row.audio_file ::
           res.1,
         (match res.2 with
          | Except.ok st2 => st2
          | Except.error _ => st),
         Except.ok ())
      | none =>
        ([Act.dbFindAudioRow audio_track_id, Act.logError msgUnknownTrack], st,
         Except.error BtnError.unknownAudioTrack)
  | ButtonCustomId.Unknown value =>
    ([Act.logError (msgUnrecognized ++ value)], st,
     Except.error (BtnError.unrecognizedCustomId value))

/-- Translation of `handle_btn_interaction` (`main.rs` lines 218-276): the
interaction is acknowledged first (line 228-230, its own result discarded),
and only then is the custom id decoded and dispatched. -/
def handle_btn_interaction (catalog : List AudioRow) (tr : Transport)
    (st : List VoiceSession) (component : ComponentInteraction) :
    List Act × List VoiceSession × Except BtnError Unit :=
  let d := btn_dispatch catalog tr st component
  (Act.acknowledge :: d.1, d.2.1, d.2.2)

/-- Translation of `handle_component_interaction` (`main.rs` lines
200-216): only button components are handled, every other component kind
is a silent no-op. -/
def handle_component_interaction (catalog : List AudioRow) (tr : Transport)
    (st : List VoiceSession) (component : ComponentInteraction) :
    List Act × List VoiceSession × Except BtnError Unit :=
  match component.kind with
  | ComponentKind.button => handle_btn_interaction catalog tr st component
  | ComponentKind.otherKind _ => ([], st, Except.ok ())

/-- Translation of `handle_interaction_create` (`main.rs` lines 183-198):
only component interactions are handled, every other interaction variant
is a silent no-op. -/
def handle_interaction_create (catalog : List AudioRow) (tr : Transport)
    (st : List VoiceSession) (interaction : Interaction) :
    List Act × List VoiceSession × Except BtnError Unit :=
  match interaction with
  | Interaction.component component => handle_component_interaction catalog tr st component
  | Interaction.otherInteraction _ => ([], st, Except.ok ())

/-- Translation of `handle_ready` (`main.rs` lines 156-181): logs identity
info and idempotently creates the audio and settings tables. -/
def handle_ready (st : List VoiceSession) :
    List Act × List VoiceSession × Except BtnError Unit :=
  ([Act.createAudioTable, Act.createSettingsTable], st, Except.ok ())

/-- Translation of `event_handler` (`main.rs` lines 137-154): dispatches
`Ready` and `InteractionCreate`, every other event is a silent no-op. -/
def event_handler (catalog : List AudioRow) (tr : Transport) (st : List VoiceSession)
    (event : FullEvent) : List Act × List VoiceSession × Except BtnError Unit :=
  match event with
  | FullEvent.ready => handle_ready st
  | FullEvent.interactionCreate interaction =>
    handle_interaction_create catalog tr st interaction
  | FullEvent.otherEvent _ => ([], st, Except.ok ())

/-- A transport on which every join and every open succeeds. -/
def trOk : Transport :=
  { joinError := fun _ _ => none, openError := fun _ => none }

/-- A transport that cannot join any channel (permission denied). -/
def trJoinFail : Transport :=
  { joinError := fun _ _ => some "join denied", openError := fun _ => none }

/-- A transport that joins but cannot open any asset. -/
def trOpenFail : Transport :=
  { joinError := fun _ _ => none, openError := fun _ => some "open failed" }

lemma parseNatAux_append (l1 l2 : List Char) : ∀ acc : Nat,
    parseNatAux acc (l1 ++ l2) = (parseNatAux acc l1).bind (fun m => parseNatAux m l2) := by
  induction l1 with
  | nil => intro acc; simp [parseNatAux]
  | cons c cs ih =>
    intro acc
    cases h : charToDigit c with
    | some d => simp [parseNatAux, h, ih]
    | none => simp [parseNatAux, h]

lemma charToDigit_digitChar (d : Nat) (hd : d < 10) :
    charToDigit (digitChar d) = some d := by
  interval_cases d <;> decide

lemma natChars_ne_nil (n : Nat) : natChars n ≠ [] := by
  rw [natChars]
  split <;> simp

lemma parseNatAux_natChars (n : Nat) : ∀ acc : Nat,
    parseNatAux acc (natChars n) = some (acc * 10 ^ (natChars n).length + n) := by
  induction n using Nat.strong_induction_on with
  | _ n ih =>
    intro acc
    by_cases h : n < 10
    · rw [natChars, dif_pos h]
      simp [parseNatAux, charToDigit_digitChar n h]
    · have h10 : n / 10 < n := Nat.div_lt_self (by omega) (by omega)
      have hmod : n % 10 < 10 := Nat.mod_lt _ (by omega)
      rw [natChars, dif_neg h, parseNatAux_append, ih _ h10 acc]
      simp only [Option.bind_eq_bind, Option.some_bind, parseNatAux,
        charToDigit_digitChar _ hmod, List.length_append, List.length_singleton, pow_succ]
      have key : n / 10 * 10 + n % 10 = n := by omega
      have expand : (acc * 10 ^ (natChars (n / 10)).length + n / 10) * 10 + n % 10 =
          acc * (10 ^ (natChars (n / 10)).length * 10) + (n / 10 * 10 + n % 10) := by ring
      rw [expand, key]

lemma parseNat_natChars (n : Nat) : parseNat (natChars n) = some n := by
  rw [parseNat, if_neg (by simp [List.isEmpty_iff, natChars_ne_nil])]
  simp [parseNatAux_natChars n 0]

lemma try_from_total (s : String) :
    (∃ n, ButtonCustomId.try_from s = ButtonCustomId.PlayAudio n) ∨
      ButtonCustomId.try_from s = ButtonCustomId.Unknown s := by
  cases h1 : stripPlay s.data with
  | none => right; simp [ButtonCustomId.try_from, h1]
  | some rest =>
    cases h2 : parseNat rest with
    | none => right; simp [ButtonCustomId.try_from, h1, h2]
    | some n => left; exact ⟨n, by simp [ButtonCustomId.try_from, h1, h2]⟩

lemma try_from_encode (n : Nat) :
    ButtonCustomId.try_from (ButtonCustomId.encode (ButtonCustomId.PlayAudio n)) =
      ButtonCustomId.PlayAudio n := by
  show ButtonCustomId.try_from (String.mk ('p' :: 'l' :: 'a' :: 'y' :: ':' :: natChars n)) =
    ButtonCustomId.PlayAudio n
  have hdata : (String.mk ('p' :: 'l' :: 'a' :: 'y' :: ':' :: natChars n)).data =
      'p' :: 'l' :: 'a' :: 'y' :: ':' :: natChars n := rfl
  have hstrip : stripPlay ('p' :: 'l' :: 'a' :: 'y' :: ':' :: natChars n) =
      some (natChars n) := rfl
  simp [ButtonCustomId.try_from, hdata, hstrip, parseNat_natChars n]

lemma setSession_nil (g : Nat) (f : VoiceSession → VoiceSession) :
    setSession [] g f = [] := rfl

lemma setSession_cons (x : VoiceSession) (xs : List VoiceSession) (g : Nat)
    (f : VoiceSession → VoiceSession) :
    setSession (x :: xs) g f =
      (if x.guild_id == g then f x else x) :: setSession xs g f := rfl

lemma guildIds_cons (x : VoiceSession) (xs : List VoiceSession) :
    guildIds (x :: xs) = x.guild_id :: guildIds xs := rfl

lemma setSession_guildIds (st : List VoiceSession) (g : Nat) (f : VoiceSession → VoiceSession)
    (hf : ∀ s, (f s).guild_id = s.guild_id) :
    guildIds (setSession st g f) = guildIds st := by
  induction st with
  | nil => rfl
  | cons x xs ih =>
    rw [setSession_cons, guildIds_cons, guildIds_cons, ih]
    congr 1
    cases hbe : (x.guild_id == g) with
    | true => simp [hf]
    | false => simp

lemma filter_setSession (st : List VoiceSession) (g : Nat) (f : VoiceSession → VoiceSession)
    (hf : ∀ s, (f s).guild_id = s.guild_id) :
    (setSession st g f).filter (fun s => s.guild_id == g) =
      (st.filter (fun s => s.guild_id == g)).map f := by
  induction st with
  | nil => rfl
  | cons x xs ih =>
    rw [setSession_cons]
    cases hbe : (x.guild_id == g) with
    | true =>
      have hxg : x.guild_id = g := by simpa using hbe
      have h2 : (f x).guild_id = g := by rw [hf x]; exact hxg
      simp [List.filter_cons, hxg, h2, ih]
    | false =>
      have hxg : ¬ x.guild_id = g := by simpa using hbe
      simp [List.filter_cons, hxg, ih]

lemma nodup_filter_single (st : List VoiceSession) (s0 : VoiceSession) (g : Nat)
    (hnd : (guildIds st).Nodup) (hmem : s0 ∈ st) (hg : s0.guild_id = g) :
    st.filter (fun s => s.guild_id == g) = [s0] := by
  induction st with
  | nil => cases hmem
  | cons x xs ih =>
    rw [guildIds, List.map_cons, List.nodup_cons] at hnd
    rcases List.mem_cons.mp hmem with h | h
    · subst h
      have hx : (s0.guild_id == g) = true := by simp [hg]
      rw [List.filter_cons, if_pos hx]
      have : xs.filter (fun s => s.guild_id == g) = [] := by
        rw [List.filter_eq_nil_iff]
        intro a ha
        have : a.guild_id ≠ s0.guild_id := by
          intro he
          exact hnd.1 (he ▸ List.mem_map_of_mem (fun s => s.guild_id) ha)
        simp [hg ▸ this]
      rw [this]
    · have hxg : ¬(x.guild_id == g) = true := by
        intro hx
        apply hnd.1
        have : s0.guild_id ∈ guildIds xs := List.mem_map_of_mem (fun s => s.guild_id) h
        rw [hg] at this
        rw [show x.guild_id = g from by simpa using hx]
        exact this
      rw [List.filter_cons, if_neg hxg]
      exact ih hnd.2 h

/-- C1: decoding a button custom id is total: every string either yields
`PlayAudio` with the exact parsed integer (in particular, decoding the
encoding of `PlayAudio id` recovers exactly `id`) or `Unknown` carrying the
original string; decoding never fails. -/
theorem spec_C1 :
    (∀ s : String, (∃ n, ButtonCustomId.try_from s = ButtonCustomId.PlayAudio n) ∨
        ButtonCustomId.try_from s = ButtonCustomId.Unknown s) ∧
    (∀ n : Nat, ButtonCustomId.try_from (ButtonCustomId.encode (ButtonCustomId.PlayAudio n)) =
        ButtonCustomId.PlayAudio n) :=
  ⟨try_from_total, try_from_encode⟩

/-- C4: for every button component interaction the handler's very first
action is the platform acknowledgement, preceding the decode of the custom
id and all dispatch work; consequently every button press, including the
ones whose handling subsequently fails, leaves the interaction
acknowledged, and failures are returned as error values (logged), never
thrown. -/
theorem spec_C4 (catalog : List AudioRow) (tr : Transport) (st : List VoiceSession)
    (component : ComponentInteraction) :
    (handle_btn_interaction catalog tr st component).1 =
      Act.acknowledge :: (btn_dispatch catalog tr st component).1 ∧
    Act.acknowledge ∈ (handle_btn_interaction catalog tr st component).1 :=
  ⟨rfl, List.mem_cons_self _ _⟩

/-- C5: a button interaction decoding to `PlayAudio id` without a guild id
fails with the missing-guild-context error, after acknowledging and
logging, with no playback started and the session state untouched. -/
theorem spec_C5 (catalog : List AudioRow) (tr : Transport) (st : List VoiceSession)
    (component : ComponentInteraction) (id : Nat)
    (hdec : ButtonCustomId.try_from component.custom_id = ButtonCustomId.PlayAudio id)
    (hguild : component.guild_id = none) :
    handle_btn_interaction catalog tr st component =
      ([Act.acknowledge, Act.logError msgMissingGuild], st,
        Except.error BtnError.missingGuildContext) ∧
    ∀ g c f, Act.voicePlayAudio g c f ∉ (handle_btn_interaction catalog tr st component).1 := by
  have hmain : handle_btn_interaction catalog tr st component =
      ([Act.acknowledge, Act.logError msgMissingGuild], st,
        Except.error BtnError.missingGuildContext) := by
    simp [handle_btn_interaction, btn_dispatch, hdec, hguild]
  refine ⟨hmain, ?_⟩
  intro g c f
  rw [hmain]
  simp

/-- C6: a button interaction decoding to `PlayAudio id` in a guild, with
`id` absent from the catalog, fails with the unknown-audio-track error:
the interaction stays acknowledged, the miss is logged, no playback is
started and the guild's voice session state is unchanged. -/
theorem spec_C6 (catalog : List AudioRow) (tr : Transport) (st : List VoiceSession)
    (component : ComponentInteraction) (g id : Nat)
    (hdec : ButtonCustomId.try_from component.custom_id = ButtonCustomId.PlayAudio id)
    (hguild : component.guild_id = some g)
    (hfind : find_audio_row catalog (UniqueAudioTableCol.Id id) = none) :
    handle_btn_interaction catalog tr st component =
      ([Act.acknowledge, Act.dbFindAudioRow id, Act.logError msgUnknownTrack], st,
        Except.error BtnError.unknownAudioTrack) ∧
    ∀ g2 c f, Act.voicePlayAudio g2 c f ∉ (handle_btn_interaction catalog tr st component).1 := by
  have hmain : handle_btn_interaction catalog tr st component =
      ([Act.acknowledge, Act.dbFindAudioRow id, Act.logError msgUnknownTrack], st,
        Except.error BtnError.unknownAudioTrack) := by
    simp [handle_btn_interaction, btn_dispatch, hdec, hguild, hfind]
  refine ⟨hmain, ?_⟩
  intro g2 c f
  rw [hmain]
  simp

/-- C7: a button interaction whose custom id decodes to `Unknown value`
always fails with the unrecognized-custom-id error carrying that original
value, logged and non-fatal (an error value, not an exception), with no
playback and the session state untouched. -/
theorem spec_C7 (catalog : List AudioRow) (tr : Transport) (st : List VoiceSession)
    (component : ComponentInteraction) (value : String)
    (hdec : ButtonCustomId.try_from component.custom_id = ButtonCustomId.Unknown value) :
    handle_btn_interaction catalog tr st component =
      ([Act.acknowledge, Act.logError (msgUnrecognized ++ value)], st,
        Except.error (BtnError.unrecognizedCustomId value)) ∧
    ∀ g c f, Act.voicePlayAudio g c f ∉ (handle_btn_interaction catalog tr st component).1 := by
  have hmain : handle_btn_interaction catalog tr st component =
      ([Act.acknowledge, Act.logError (msgUnrecognized ++ value)], st,
        Except.error (BtnError.unrecognizedCustomId value)) := by
    simp [handle_btn_interaction, btn_dispatch, hdec]
  refine ⟨hmain, ?_⟩
  intro g c f
  rw [hmain]
  simp

/-- C2: the session map keeps at most one voice session per guild (the
no-duplicate-guilds invariant is preserved), and a successful `play_audio`
for a guild already playing track A with track B leaves exactly one
session for that guild, whose single active track is B in the playing
state — the later request preempts the earlier track. -/
theorem spec_C2 (tr : Transport) (st : List VoiceSession) (s0 : VoiceSession)
    (g c : Nat) (fA fB : String)
    (hnd : (guildIds st).Nodup)
    (hmem : s0 ∈ st) (hg : s0.guild_id = g)
    (htrack : s0.track = some fA) (hstate : s0.playState = PlayState.playing)
    (hjoin : tr.joinError g c = none) (hopen : tr.openError fB = none) :
    ∃ st2, play_audio tr st g c fB = ([], Except.ok st2) ∧
      (guildIds st2).Nodup ∧ guildIds st2 = guildIds st ∧
      (st2.filter (fun s => s.guild_id == g)).map (fun s => (s.track, s.playState)) =
        [(some fB, PlayState.playing)] := by
  have hany : st.any (fun s => s.guild_id == g) = true :=
    List.any_eq_true.mpr ⟨s0, hmem, by simp [hg]⟩
  have hconn : connect st g c =
      setSession st g (fun s => { s with channel_id := some c }) := by
    rw [connect, if_pos hany]
  have hf1 : ∀ s : VoiceSession,
      ((fun s : VoiceSession => { s with channel_id := some c }) s).guild_id =
        s.guild_id := fun _ => rfl
  have hf2 : ∀ s : VoiceSession,
      ((fun s : VoiceSession =>
        { s with track := some fB, playState := PlayState.playing }) s).guild_id =
        s.guild_id := fun _ => rfl
  refine ⟨setSession (setSession st g (fun s => { s with channel_id := some c })) g
    (fun s => { s with track := some fB, playState := PlayState.playing }), ?_, ?_, ?_, ?_⟩
  · simp [play_audio, hjoin, hopen, hconn]
  · rw [setSession_guildIds _ _ _ hf2, setSession_guildIds _ _ _ hf1]
    exact hnd
  · rw [setSession_guildIds _ _ _ hf2, setSession_guildIds _ _ _ hf1]
  · rw [filter_setSession _ _ _ hf2, filter_setSession _ _ _ hf1,
      nodup_filter_single st s0 g hnd hmem hg]
    rfl

/-- C3: for every id not in the catalog the lookup returns `none`; when it
returns a row, that row is a catalog row with exactly the requested id
(never a default or garbage row); and the button handler observes absence
only through the `none` branch, failing with the unknown-audio-track
error. -/
theorem spec_C3 :
    (∀ (catalog : List AudioRow) (id : Nat), (∀ r ∈ catalog, r.id ≠ id) →
        find_audio_row catalog (UniqueAudioTableCol.Id id) = none) ∧
    (∀ (catalog : List AudioRow) (id : Nat) (r : AudioRow),
        find_audio_row catalog (UniqueAudioTableCol.Id id) = some r →
        r ∈ catalog ∧ r.id = id) ∧
    (∀ (catalog : List AudioRow) (tr : Transport) (st : List VoiceSession)
        (component : ComponentInteraction) (g id : Nat),
        ButtonCustomId.try_from component.custom_id = ButtonCustomId.PlayAudio id →
        component.guild_id = some g →
        find_audio_row catalog (UniqueAudioTableCol.Id id) = none →
        (handle_btn_interaction catalog tr st component).2.2 =
          Except.error BtnError.unknownAudioTrack) := by
  refine ⟨?_, ?_, ?_⟩
  · intro catalog id h
    show catalog.find? (fun r => r.id == id) = none
    rw [List.find?_eq_none]
    intro r hr
    simpa using h r hr
  · intro catalog id r hfind
    have hfind2 : catalog.find? (fun r => r.id == id) = some r := hfind
    exact ⟨List.mem_of_find?_eq_some hfind2, by simpa using List.find?_some hfind2⟩
  · intro catalog tr st component g id hdec hguild hfind
    simp [handle_btn_interaction, btn_dispatch, hdec, hguild, hfind]

/-- C8: `play_audio` fails with `ConnectFailed` carrying the underlying
cause when the transport cannot join the channel, and with
`PlaybackFailed` carrying the cause when the asset cannot be
opened/streamed; in the button handler the failure is reported (the cause
is logged) and is non-fatal: the handler still succeeds and the session
state is left unchanged. -/
theorem spec_C8 :
    (∀ (tr : Transport) (st : List VoiceSession) (g c : Nat) (file cause : String),
        tr.joinError g c = some cause →
        play_audio tr st g c file =
          ([Act.logError cause], Except.error (VoiceError.ConnectFailed cause))) ∧
    (∀ (tr : Transport) (st : List VoiceSession) (g c : Nat) (file cause : String),
        tr.joinError g c = none → tr.openError file = some cause →
        play_audio tr st g c file =
          ([Act.logError cause], Except.error (VoiceError.PlaybackFailed cause))) ∧
    (∀ (catalog : List AudioRow) (tr : Transport) (st : List VoiceSession)
        (component : ComponentInteraction) (g id : Nat) (row : AudioRow) (cause : String),
        ButtonCustomId.try_from component.custom_id = ButtonCustomId.PlayAudio id →
        component.guild_id = some g →
        find_audio_row catalog (UniqueAudioTableCol.Id id) = some row →
        tr.joinError g component.channel_id = some cause →
        Act.logError cause ∈ (handle_btn_interaction catalog tr st component).1 ∧
          (handle_btn_interaction catalog tr st component).2.2 = Except.ok () ∧
          (handle_btn_interaction catalog tr st component).2.1 = st) := by
  refine ⟨?_, ?_, ?_⟩
  · intro tr st g c file cause hjoin
    simp [play_audio, hjoin]
  · intro tr st g c file cause hjoin hopen
    simp [play_audio, hjoin, hopen]
  · intro catalog tr st component g id row cause hdec hguild hfind hjoin
    refine ⟨?_, ?_, ?_⟩ <;>
      simp [handle_btn_interaction, btn_dispatch, hdec, hguild, hfind, play_audio, hjoin]

/-- C9: the event router reacts exactly to the ready and
interaction-create events, and within those only to component interactions
of kind button: every other event variant, interaction variant or
component kind is a silent no-op returning success, while the ready event
idempotently creates the two tables. -/
theorem spec_C9 :
    (∀ (catalog : List AudioRow) (tr : Transport) (st : List VoiceSession) (t : Nat),
        event_handler catalog tr st (FullEvent.otherEvent t) = ([], st, Except.ok ())) ∧
    (∀ (catalog : List AudioRow) (tr : Transport) (st : List VoiceSession) (t : Nat),
        handle_interaction_create catalog tr st (Interaction.otherInteraction t) =
          ([], st, Except.ok ())) ∧
    (∀ (catalog : List AudioRow) (tr : Transport) (st : List VoiceSession)
        (component : ComponentInteraction) (t : Nat),
        component.kind = ComponentKind.otherKind t →
        handle_component_interaction catalog tr st component = ([], st, Except.ok ())) ∧
    (∀ (catalog : List AudioRow) (tr : Transport) (st : List VoiceSession),
        event_handler catalog tr st FullEvent.ready =
          ([Act.createAudioTable, Act.createSettingsTable], st, Except.ok ())) ∧
    (∀ (catalog : List AudioRow) (tr : Transport) (st : List VoiceSession)
        (interaction : Interaction),
        event_handler catalog tr st (FullEvent.interactionCreate interaction) =
          handle_interaction_create catalog tr st interaction) := by
  refine ⟨fun _ _ _ _ => rfl, fun _ _ _ _ => rfl, ?_, fun _ _ _ => rfl, fun _ _ _ _ => rfl⟩
  intro catalog tr st component t hkind
  simp [handle_component_interaction, hkind]

/-- C10: a button interaction decoding to `PlayAudio id` without a guild
id returns an error with the acknowledgement as its only external action:
no catalog query and no voice call are performed and the session state is
untouched; moreover a catalog query can appear in the handler's trace only
when the guild id is present, so the guild check strictly precedes the
catalog lookup. -/
theorem spec_C10 :
    (∀ (catalog : List AudioRow) (tr : Transport) (st : List VoiceSession)
        (component : ComponentInteraction) (id : Nat),
        ButtonCustomId.try_from component.custom_id = ButtonCustomId.PlayAudio id →
        component.guild_id = none →
        (handle_btn_interaction catalog tr st component).1.filter isExternalAct =
            [Act.acknowledge] ∧
          (handle_btn_interaction catalog tr st component).2.1 = st ∧
          (handle_btn_interaction catalog tr st component).2.2 =
            Except.error BtnError.missingGuildContext ∧
          (∀ i, Act.dbFindAudioRow i ∉ (handle_btn_interaction catalog tr st component).1) ∧
          (∀ g c f,
            Act.voicePlayAudio g c f ∉ (handle_btn_interaction catalog tr st component).1)) ∧
    (∀ (catalog : List AudioRow) (tr : Transport) (st : List VoiceSession)
        (component : ComponentInteraction) (i : Nat),
        Act.dbFindAudioRow i ∈ (handle_btn_interaction catalog tr st component).1 →
        component.guild_id ≠ none) := by
  constructor
  · intro catalog tr st component id hdec hguild
    have hmain : handle_btn_interaction catalog tr st component =
        ([Act.acknowledge, Act.logError msgMissingGuild], st,
          Except.error BtnError.missingGuildContext) := by
      simp [handle_btn_interaction, btn_dispatch, hdec, hguild]
    rw [hmain]
    refine ⟨?_, rfl, rfl, ?_, ?_⟩
    · simp [isExternalAct]
    · intro i; simp
    · intro g c f; simp
  · intro catalog tr st component i hmem hnone
    cases hdec : ButtonCustomId.try_from component.custom_id with
    | PlayAudio id2 =>
      simp [handle_btn_interaction, btn_dispatch, hdec, hnone] at hmem
    | Unknown v =>
      simp [handle_btn_interaction, btn_dispatch, hdec] at hmem

/-- Witness for C2 at a concrete session map: guild 7 is playing a.mp3 and
a successful play request for b.mp3 preempts it. -/
theorem spec_C2_witness :
    ∃ st2, play_audio trOk
        [{ guild_id := 7, channel_id := some 3, track := some "a.mp3",
           playState := PlayState.playing }] 7 3 "b.mp3" = ([], Except.ok st2) ∧
      (guildIds st2).Nodup ∧
      guildIds st2 = guildIds
        [{ guild_id := 7, channel_id := some 3, track := some "a.mp3",
           playState := PlayState.playing }] ∧
      (st2.filter (fun s => s.guild_id == 7)).map (fun s => (s.track, s.playState)) =
        [(some "b.mp3", PlayState.playing)] :=
  spec_C2 trOk _
    { guild_id := 7, channel_id := some 3, track := some "a.mp3",
      playState := PlayState.playing } 7 3 "a.mp3" "b.mp3"
    (by decide) (by decide) rfl rfl rfl rfl rfl

/-- Witness for C3 at a concrete catalog: id 999 is absent from the
single-row catalog and the lookup returns `none`. -/
theorem spec_C3_witness :
    find_audio_row [{ id := 1, name := "airhorn", audio_file := "airhorn.mp3" }]
      (UniqueAudioTableCol.Id 999) = none :=
  spec_C3.1 [{ id := 1, name := "airhorn", audio_file := "airhorn.mp3" }] 999 (by decide)

/-- Witness for C5 at a concrete interaction: custom id play:5 pressed
outside a guild. -/
theorem spec_C5_witness :
    handle_btn_interaction [] trOk []
        { custom_id := "play:5", channel_id := 3, guild_id := none,
          kind := ComponentKind.button } =
      ([Act.acknowledge, Act.logError msgMissingGuild], [],
        Except.error BtnError.missingGuildContext) :=
  (spec_C5 [] trOk []
    { custom_id := "play:5", channel_id := 3, guild_id := none,
      kind := ComponentKind.button } 5 (by decide) rfl).1

/-- Witness for C6 at a concrete interaction: custom id play:999 pressed
in guild 7 while the catalog only holds id 1. -/
theorem spec_C6_witness :
    handle_btn_interaction [{ id := 1, name := "airhorn", audio_file := "airhorn.mp3" }]
        trOk []
        { custom_id := "play:999", channel_id := 3, guild_id := some 7,
          kind := ComponentKind.button } =
      ([Act.acknowledge, Act.dbFindAudioRow 999, Act.logError msgUnknownTrack], [],
        Except.error BtnError.unknownAudioTrack) :=
  (spec_C6 [{ id := 1, name := "airhorn", audio_file := "airhorn.mp3" }] trOk []
    { custom_id := "play:999", channel_id := 3, guild_id := some 7,
      kind := ComponentKind.button } 7 999 (by decide) rfl (by decide)).1

/-- Witness for C7 at a concrete interaction: custom id garbage decodes to
`Unknown "garbage"` and dispatch fails with the unrecognized-custom-id
error carrying it. -/
theorem spec_C7_witness :
    handle_btn_interaction [] trOk []
        { custom_id := "garbage", channel_id := 3, guild_id := some 7,
          kind := ComponentKind.button } =
      ([Act.acknowledge, Act.logError (msgUnrecognized ++ "garbage")], [],
        Except.error (BtnError.unrecognizedCustomId "garbage")) :=
  (spec_C7 [] trOk []
    { custom_id := "garbage", channel_id := 3, guild_id := some 7,
      kind := ComponentKind.button } "garbage" (by decide)).1

/-- Witness for C8 at a concrete failing transport: the join is denied and
`play_audio` fails with `ConnectFailed` carrying the cause. -/
theorem spec_C8_witness :
    play_audio trJoinFail [] 7 3 "f.mp3" =
      ([Act.logError "join denied"], Except.error (VoiceError.ConnectFailed "join denied")) :=
  spec_C8.1 trJoinFail [] 7 3 "f.mp3" "join denied" rfl

/-- Witness for C9 at a concrete non-button component interaction: the
handler is a silent no-op. -/
theorem spec_C9_witness :
    handle_component_interaction [] trOk []
        { custom_id := "x", channel_id := 3, guild_id := none,
          kind := ComponentKind.otherKind 0 } = ([], [], Except.ok ()) :=
  spec_C9.2.2.1 [] trOk []
    { custom_id := "x", channel_id := 3, guild_id := none,
      kind := ComponentKind.otherKind 0 } 0 rfl

/-- Witness for C10 at a concrete interaction: play:5 outside a guild
leaves the acknowledgement as the only external action. -/
theorem spec_C10_witness :
    (handle_btn_interaction [] trOk []
        { custom_id := "play:5", channel_id := 9, guild_id := none,
          kind := ComponentKind.button }).1.filter isExternalAct = [Act.acknowledge] :=
  (spec_C10.1 [] trOk []
    { custom_id := "play:5", channel_id := 9, guild_id := none,
      kind := ComponentKind.button } 5 (by decide) rfl).1
